import Mathlib

/-!
Verification of the Solana wallet meme-token gains analyzer.

The development shallowly embeds the core of the tracker
(SolanaWalletTracker in src/index.js together with the controller
getWalletGains): multi-source price resolution with caching,
eligibility filtering, cost-basis lookup backed by a JSON file, and
the gains orchestration. External collaborators (HTTP calls, the chain
RPC, the three signal detectors) are modelled as explicit inputs: a
call that may throw is a value of a sum type, a cache is an Option,
the persisted file is a small state machine. Prices and amounts are
modelled as exact rationals.
-/

deriving instance DecidableEq for Except

namespace MemeGains

/-- Outcome of one external price-source call: the HTTP call either
throws (network error, timeout, malformed body) or resolves to a
numeric price. -/
inductive SourceResult where
  | err
  | val (p : ℚ)
deriving DecidableEq

/-- True when a source is useless to the fallback loop: it throws, or
it resolves to a non-positive price. -/
def sourceYieldsNoPrice : SourceResult → Bool
  | SourceResult.err => true
  | SourceResult.val p => decide (p ≤ 0)

/-- The for-loop over priceSources in getTokenPrice: try each source in
order inside try/catch; a thrown error is logged and skipped, a price
that is not greater than 0 is skipped; the first positive price stops
the loop. Returns the found price (if any) and how many sources were
invoked. -/
def tryPriceSources : List SourceResult → Option ℚ × Nat
  | [] => (none, 0)
  | SourceResult.err :: rest =>
      let r := tryPriceSources rest
      (r.1, r.2 + 1)
  | SourceResult.val p :: rest =>
      if 0 < p then (some p, 1)
      else
        let r := tryPriceSources rest
        (r.1, r.2 + 1)

/-- JavaScript truthiness of the cache lookup in
the line if (cachedPrice) return cachedPrice: undefined (a miss) and 0
are falsy, every other number is truthy. -/
def jsTruthy : Option ℚ → Bool
  | none => false
  | some p => !(decide (p = 0))

/-- Result of one getTokenPrice call: the returned price, the price
cache entry for the mint afterwards, and the number of price sources
that were invoked. -/
structure PriceFetchOutcome where
  price : ℚ
  cache : Option ℚ
  sourcesInvoked : Nat
deriving DecidableEq

/-- Embedding of SolanaWalletTracker.getTokenPrice. The cache
argument is the price-cache entry for the queried mint (none when the
entry is absent or its TTL has expired); the sources list is the
behaviour of CoinGecko, DexScreener and Raydium for this mint, in the
fixed order the code tries them. -/
def getTokenPrice (cache : Option ℚ) (sources : List SourceResult) : PriceFetchOutcome :=
  if jsTruthy cache then ⟨cache.getD 0, cache, 0⟩
  else
    match tryPriceSources sources with
    | (some p, n) => ⟨p, some p, n⟩
    | (none, n) => ⟨0, cache, n⟩

/-- Outcome of one external signal-detector call (checkTokenVolume,
checkSocialTraction, checkTokenAge): it either rejects or resolves to
a boolean. -/
inductive SignalResult where
  | err
  | val (b : Bool)
deriving DecidableEq

/-- Promise.all over the three signal promises: it resolves to the
triple of booleans when all three resolve, and rejects as soon as any
of them rejects. -/
def promiseAll3 : SignalResult → SignalResult → SignalResult → Option (Bool × Bool × Bool)
  | SignalResult.val a, SignalResult.val b, SignalResult.val c => some (a, b, c)
  | _, _, _ => none

/-- Result of one isTradableMemeToken call: the returned boolean, the
metadata-cache entry for the mint afterwards, and whether the signal
detectors were invoked at all. -/
structure EligibilityOutcome where
  result : Bool
  cache : Option Bool
  signalsEvaluated : Bool
deriving DecidableEq

/-- Embedding of SolanaWalletTracker.isTradableMemeToken. The cache
argument is the metadata-cache entry for the mint (the code checks it
with a strict undefined comparison, so a cached false is served). On a
miss the three signals run under Promise.all; if all resolve, the mint
is tradable iff at least two signals are true (signals.filter(Boolean)
.length greater or equal 2) and that boolean is cached; if any signal
rejects, the surrounding catch logs a warning and returns false
without writing the cache. -/
def isTradableMemeToken (cache : Option Bool) (s1 s2 s3 : SignalResult) :
    EligibilityOutcome :=
  match cache with
  | some b => ⟨b, some b, false⟩
  | none =>
    match promiseAll3 s1 s2 s3 with
    | some (b1, b2, b3) =>
        let isTradable := decide (2 ≤ ([b1, b2, b3].filter id).length)
        ⟨isTradable, some isTradable, true⟩
    | none => ⟨false, none, true⟩

/-- State of the cost-basis.json backing file: absent, present but not
valid JSON, or a parsed key-to-number object (as an association
list). -/
inductive FileState where
  | absent
  | corrupt
  | valid (data : List (String × ℚ))
deriving DecidableEq

/-- The template key of the cost-basis store:
walletAddress underscore mintAddress. -/
def costBasisKey (wallet mint : String) : String := wallet ++ "_" ++ mint

/-- Embedding of SolanaWalletTracker.trackCostBasis. Returns the cost
basis handed to the caller and the state of the backing file
afterwards. When readFile or JSON.parse throws, the inner catch writes
an empty JSON object to the file and the local object stays empty, so
the lookup yields 0; when the file parses, the stored value for the
key is returned (or 0 via the JavaScript or-default) and the file is
untouched. -/
def trackCostBasis (file : FileState) (wallet mint : String) : ℚ × FileState :=
  match file with
  | FileState.absent => (0, FileState.valid [])
  | FileState.corrupt => (0, FileState.valid [])
  | FileState.valid data =>
      ((data.lookup (costBasisKey wallet mint)).getD 0, FileState.valid data)

/-- One parsed token account relevant to the calculation: the mint and
the uiAmount of tokenAmount. -/
structure Holding where
  mint : String
  uiAmount : ℚ
deriving DecidableEq

/-- The record built per holding by calculateGains. -/
structure GainResult where
  token : String
  currentPrice : ℚ
  amount : ℚ
  costBasis : ℚ
  totalValue : ℚ
  unrealizedGain : ℚ
deriving DecidableEq

/-- Array.prototype.filter applied to an async callback: the callback
returns a Promise object, and filter tests that object for truthiness;
a Promise is always truthy, so every element passes regardless of the
boolean the promise would resolve to. -/
def jsTruthyPromise (_resolvedValue : Bool) : Bool := true

/-- Embedding of SolanaWalletTracker.calculateGains. validAddress says
whether the PublicKey constructor accepts the address; holdings is the
outcome of getParsedTokenAccountsByOwner (which may throw); eligible,
price and costBasis abstract the per-mint collaborators. A thrown
error is caught, logged, and rethrown with the text Wallet gains
calculation failed prefixed to the internal message. The filter step
uses jsTruthyPromise because the source passes an async predicate to
a synchronous filter. -/
def calculateGains (validAddress : Bool) (holdings : Except String (List Holding))
    (eligible : String → Bool) (price : String → ℚ) (costBasis : String → String → ℚ)
    (walletAddress : String) : Except String (List GainResult) :=
  if !validAddress then
    Except.error ("Wallet gains calculation failed: " ++ "Invalid Solana wallet address")
  else
    match holdings with
    | Except.error msg => Except.error ("Wallet gains calculation failed: " ++ msg)
    | Except.ok accounts =>
      let gainResults :=
        (accounts.filter (fun a => jsTruthyPromise (eligible a.mint))).map
          (fun a =>
            ⟨a.mint, price a.mint, a.uiAmount, costBasis walletAddress a.mint,
              price a.mint * a.uiAmount,
              price a.mint * a.uiAmount - costBasis walletAddress a.mint⟩)
      Except.ok (gainResults.filter (fun r => decide (0 < r.totalValue)))

/-- Response produced by the controller getWalletGains: either an
immediate JSON response or an error forwarded to the error-handler
middleware via next. -/
inductive ControllerOutcome where
  | respond (status : Nat) (success : Bool) (message : Option String)
      (data : Option (List GainResult))
  | forward (err : String)
deriving DecidableEq

/-- Embedding of the controller getWalletGains. The second component
of the result records whether calculateGains was invoked. The guard is
the line if (not address or address.length less than 32). -/
def getWalletGains (calcGains : String → Except String (List GainResult))
    (address : String) : ControllerOutcome × Bool :=
  if address = "" || address.length < 32 then
    (ControllerOutcome.respond 400 false (some "Invalid wallet address") none, false)
  else
    match calcGains address with
    | Except.ok results => (ControllerOutcome.respond 200 true none (some results), true)
    | Except.error e => (ControllerOutcome.forward e, true)

/-- Skipping a failing prefix of the source list: when every source in
pre throws or yields a non-positive price, the fallback loop walks
through all of pre and continues with the remaining sources, invoking
pre.length additional sources. -/
theorem tryPriceSources_skip_failures (pre l : List SourceResult)
    (h : ∀ s ∈ pre, sourceYieldsNoPrice s = true) :
    tryPriceSources (pre ++ l) =
      ((tryPriceSources l).1, (tryPriceSources l).2 + pre.length) := by
  induction pre with
  | nil => simp
  | cons s t ih =>
    have hs : sourceYieldsNoPrice s = true := h s (List.mem_cons_self s t)
    have ht : ∀ x ∈ t, sourceYieldsNoPrice x = true :=
      fun x hx => h x (List.mem_cons_of_mem s hx)
    cases s with
    | err =>
      simp [tryPriceSources, ih ht]
      omega
    | val q =>
      have hq : ¬ 0 < q := by
        have : q ≤ 0 := by simpa [sourceYieldsNoPrice] using hs
        exact not_lt.mpr this
      simp [tryPriceSources, hq, ih ht]
      omega

/-- When every source in the list throws or yields a non-positive
price, the fallback loop exhausts the whole list and finds nothing. -/
theorem tryPriceSources_all_failures (l : List SourceResult)
    (h : ∀ s ∈ l, sourceYieldsNoPrice s = true) :
    tryPriceSources l = (none, l.length) := by
  have hmain := tryPriceSources_skip_failures l [] h
  simpa [tryPriceSources] using hmain

/-- C2: for a mint not in the price cache, getTokenPrice tries the
sources in their fixed order; sources that throw or return a
non-positive price are skipped; the first source returning a positive
price p has p returned and stored in the cache, and a subsequent call
that still sees the cache entry returns p without invoking any
source. -/
theorem C2_price_fallback_first_positive_cached (pre rest : List SourceResult) (p : ℚ)
    (hpre : ∀ s ∈ pre, sourceYieldsNoPrice s = true) (hp : 0 < p) :
    getTokenPrice none (pre ++ SourceResult.val p :: rest) =
      ⟨p, some p, pre.length + 1⟩ ∧
    getTokenPrice (some p) (pre ++ SourceResult.val p :: rest) = ⟨p, some p, 0⟩ := by
  have hhead : tryPriceSources (SourceResult.val p :: rest) = (some p, 1) := by
    simp [tryPriceSources, hp]
  have hfall := tryPriceSources_skip_failures pre (SourceResult.val p :: rest) hpre
  rw [hhead] at hfall
  constructor
  · simp [getTokenPrice, jsTruthy, hfall, Nat.add_comm]
  · have hp0 : ¬ p = 0 := by positivity
    simp [getTokenPrice, jsTruthy, hp0]

/-- Witness for C2: one failing source followed by a source returning
7 yields price 7, caches it after invoking two sources, and the cached
call invokes no source. -/
theorem C2_price_fallback_first_positive_cached_witness :
    getTokenPrice none ([SourceResult.err] ++ SourceResult.val 7 :: [SourceResult.val 9]) =
      ⟨7, some 7, 2⟩ ∧
    getTokenPrice (some 7)
      ([SourceResult.err] ++ SourceResult.val 7 :: [SourceResult.val 9]) = ⟨7, some 7, 0⟩ :=
  C2_price_fallback_first_positive_cached [SourceResult.err] [SourceResult.val 9] 7
    (by simp [sourceYieldsNoPrice]) (by norm_num)

/-- C3: for a mint not in the price cache, when every source throws or
returns a non-positive price, getTokenPrice returns exactly 0 (it does
not throw: every source error is swallowed by the loop) and leaves the
cache entry absent. -/
theorem C3_all_sources_fail_returns_zero (sources : List SourceResult)
    (h : ∀ s ∈ sources, sourceYieldsNoPrice s = true) :
    getTokenPrice none sources = ⟨0, none, sources.length⟩ := by
  simp [getTokenPrice, jsTruthy, tryPriceSources_all_failures sources h]

/-- Witness for C3: a throwing source, a zero price and a negative
price produce the price 0 and no cache entry. -/
theorem C3_all_sources_fail_returns_zero_witness :
    getTokenPrice none [SourceResult.err, SourceResult.val 0, SourceResult.val (-2)] =
      ⟨0, none, 3⟩ :=
  C3_all_sources_fail_returns_zero
    [SourceResult.err, SourceResult.val 0, SourceResult.val (-2)]
    (by simp [sourceYieldsNoPrice])

/-- C4: for a mint not in the metadata cache whose three signals all
resolve, isTradableMemeToken returns true iff at least two of the
three booleans are true, stores that boolean in the metadata cache,
and a repeated call that sees the cache entry returns the cached
boolean without evaluating any signal. -/
theorem C4_two_of_three_signals_cached (b1 b2 b3 : Bool) :
    ((isTradableMemeToken none (SignalResult.val b1) (SignalResult.val b2)
        (SignalResult.val b3)).result = true ↔
      2 ≤ ([b1, b2, b3].filter id).length) ∧
    (isTradableMemeToken none (SignalResult.val b1) (SignalResult.val b2)
        (SignalResult.val b3)).cache =
      some (isTradableMemeToken none (SignalResult.val b1) (SignalResult.val b2)
        (SignalResult.val b3)).result ∧
    isTradableMemeToken
      (isTradableMemeToken none (SignalResult.val b1) (SignalResult.val b2)
        (SignalResult.val b3)).cache
      (SignalResult.val b1) (SignalResult.val b2) (SignalResult.val b3) =
      ⟨(isTradableMemeToken none (SignalResult.val b1) (SignalResult.val b2)
          (SignalResult.val b3)).result,
        (isTradableMemeToken none (SignalResult.val b1) (SignalResult.val b2)
          (SignalResult.val b3)).cache, false⟩ := by
  cases b1 <;> cases b2 <;> cases b3 <;>
    simp [isTradableMemeToken, promiseAll3]

/-- C5 as stated is false on the code: with the first signal throwing
and the other two true, isTradableMemeToken returns false, not
true. -/
theorem C5_counterexample_signal_error_not_degraded :
    ¬ ((isTradableMemeToken none SignalResult.err (SignalResult.val true)
        (SignalResult.val true)).result = true) := by
  simp [isTradableMemeToken, promiseAll3]

/-- C5 amended: when any of the three signal evaluations throws (in
particular exactly one, while the other two return true), Promise.all
rejects, so the whole evaluation degrades: isTradableMemeToken returns
false regardless of the other signals and stores nothing in the
cache. -/
theorem C5_amended_signal_error_fails_whole_evaluation
    (s1 s2 s3 : SignalResult) (h : promiseAll3 s1 s2 s3 = none) :
    isTradableMemeToken none s1 s2 s3 = ⟨false, none, true⟩ := by
  simp [isTradableMemeToken, h]

/-- Witness for the amended C5: first signal throws, the other two are
true; the result is false and the cache stays empty. -/
theorem C5_amended_signal_error_fails_whole_evaluation_witness :
    isTradableMemeToken none SignalResult.err (SignalResult.val true)
      (SignalResult.val true) = ⟨false, none, true⟩ :=
  C5_amended_signal_error_fails_whole_evaluation SignalResult.err
    (SignalResult.val true) (SignalResult.val true) (by simp [promiseAll3])

/-- C6: a wallet and mint pair with no prior record yields cost basis
exactly 0 without an error, both when the backing file does not exist
(in which case the store file is initialized to an empty object as a
side effect) and when the file exists but lacks the key. -/
theorem C6_missing_record_returns_zero (wallet mint : String)
    (data : List (String × ℚ))
    (h : data.lookup (costBasisKey wallet mint) = none) :
    trackCostBasis FileState.absent wallet mint = (0, FileState.valid []) ∧
    trackCostBasis (FileState.valid data) wallet mint = (0, FileState.valid data) := by
  refine ⟨rfl, ?_⟩
  simp [trackCostBasis, h]

/-- Witness for C6: wallet W and mint M have no record in a store
holding only the key X_Y; both the absent-file and the present-file
queries return 0. -/
theorem C6_missing_record_returns_zero_witness :
    trackCostBasis FileState.absent "W" "M" = (0, FileState.valid []) ∧
    trackCostBasis (FileState.valid [("X_Y", 3)]) "W" "M" =
      (0, FileState.valid [("X_Y", 3)]) :=
  C6_missing_record_returns_zero "W" "M" [("X_Y", 3)] (by decide)

/-- C7: an empty address or one shorter than 32 characters makes the
controller respond 400 with success false and the message Invalid
wallet address, and calculateGains is never invoked (the second
component of the outcome is false). -/
theorem C7_short_address_rejected_without_collaborators
    (calcGains : String → Except String (List GainResult)) (address : String)
    (h : address = "" ∨ address.length < 32) :
    getWalletGains calcGains address =
      (ControllerOutcome.respond 400 false (some "Invalid wallet address") none,
        false) := by
  rcases h with h | h <;> simp [getWalletGains, h]

/-- Witness for C7: the three-character address abc is rejected with
the 400 response and no call into calculateGains. -/
theorem C7_short_address_rejected_without_collaborators_witness :
    getWalletGains (fun _ => Except.ok []) "abc" =
      (ControllerOutcome.respond 400 false (some "Invalid wallet address") none,
        false) :=
  C7_short_address_rejected_without_collaborators (fun _ => Except.ok []) "abc"
    (Or.inr (by decide))

/-- C8 as stated is false on the code: when the holdings fetch throws
with the internal message RPC timeout, calculateGains rethrows an
error whose message is the stable prefix concatenated with the
internal message, so the internal diagnostic text is contained in
(indeed is a suffix of) the escalated message. -/
theorem C8_counterexample_internal_message_leaks :
    calculateGains true (Except.error "RPC timeout") (fun _ => true) (fun _ => 1)
      (fun _ _ => 0) "W" =
      Except.error ("Wallet gains calculation failed: " ++ "RPC timeout") ∧
    List.IsInfix ("RPC timeout".data)
      ("Wallet gains calculation failed: " ++ "RPC timeout").data :=
  ⟨rfl, by decide⟩

/-- C8 amended: every error calculateGains escalates carries the
stable prefix Wallet gains calculation failed followed by the internal
diagnostic message, so the internal detail is included in the raised
message (it is logged and returned, not only logged): this holds both
for an invalid address and for a holdings-fetch failure. -/
theorem C8_amended_escalation_carries_internal_message
    (internalMsg : String) (holdings : Except String (List Holding))
    (eligible : String → Bool) (price : String → ℚ)
    (costBasis : String → String → ℚ) (wallet : String) :
    calculateGains true (Except.error internalMsg) eligible price costBasis wallet =
      Except.error ("Wallet gains calculation failed: " ++ internalMsg) ∧
    calculateGains false holdings eligible price costBasis wallet =
      Except.error
        ("Wallet gains calculation failed: " ++ "Invalid Solana wallet address") :=
  ⟨rfl, rfl⟩

/-- C9: every GainResult in the list returned by calculateGains has
totalValue equal to currentPrice times amount and unrealizedGain equal
to totalValue minus costBasis, and has totalValue strictly positive
(results with totalValue at most 0, in particular holdings whose
resolved price is 0, are filtered out). -/
theorem C9_gain_result_invariants (validAddress : Bool)
    (holdings : Except String (List Holding)) (eligible : String → Bool)
    (price : String → ℚ) (costBasis : String → String → ℚ) (wallet : String)
    (results : List GainResult) (r : GainResult)
    (hok : calculateGains validAddress holdings eligible price costBasis wallet =
      Except.ok results)
    (hr : r ∈ results) :
    r.totalValue = r.currentPrice * r.amount ∧
    r.unrealizedGain = r.totalValue - r.costBasis ∧
    0 < r.totalValue := by
  cases validAddress with
  | false => simp [calculateGains] at hok
  | true =>
    cases holdings with
    | error msg => simp [calculateGains] at hok
    | ok accounts =>
      simp only [calculateGains, Bool.not_true, Bool.false_eq_true, if_false,
        Except.ok.injEq] at hok
      subst hok
      rw [List.mem_filter] at hr
      obtain ⟨hmem, hpos⟩ := hr
      rw [List.mem_map] at hmem
      obtain ⟨a, -, rfl⟩ := hmem
      exact ⟨rfl, rfl, by simpa using hpos⟩

/-- Witness for C9: a single holding of 10 tokens of mint A at price 2
with cost basis 5 produces the GainResult with totalValue 20 and
unrealizedGain 15, which satisfies all three invariants. -/
theorem C9_gain_result_invariants_witness :
    (⟨"A", 2, 10, 5, 20, 15⟩ : GainResult).totalValue =
      (⟨"A", 2, 10, 5, 20, 15⟩ : GainResult).currentPrice *
        (⟨"A", 2, 10, 5, 20, 15⟩ : GainResult).amount ∧
    (⟨"A", 2, 10, 5, 20, 15⟩ : GainResult).unrealizedGain =
      (⟨"A", 2, 10, 5, 20, 15⟩ : GainResult).totalValue -
        (⟨"A", 2, 10, 5, 20, 15⟩ : GainResult).costBasis ∧
    0 < (⟨"A", 2, 10, 5, 20, 15⟩ : GainResult).totalValue :=
  C9_gain_result_invariants true (Except.ok [⟨"A", 10⟩]) (fun _ => true)
    (fun _ => 2) (fun _ _ => 5) "W" [⟨"A", 2, 10, 5, 20, 15⟩] ⟨"A", 2, 10, 5, 20, 15⟩
    (by simp [calculateGains, jsTruthyPromise]; norm_num) (by simp)

/-- C1 concerns behaviour the code does not have: the source filters
the holdings with an asynchronous predicate inside the synchronous
Array filter, so the ineligible holding B survives (the Promise is
truthy) and, having positive totalValue, appears in the returned list
next to A: the result has two records where the claim requires exactly
one. -/
theorem C1_failing_input_ineligible_holding_kept :
    calculateGains true (Except.ok [⟨"A", 10⟩, ⟨"B", 1⟩])
      (fun m => m = "A") (fun m => if m = "A" then 2 else 1)
      (fun _ m => if m = "A" then 5 else 0) "W" =
      Except.ok [⟨"A", 2, 10, 5, 20, 15⟩, ⟨"B", 1, 1, 0, 1, 1⟩] := by
  simp [calculateGains, jsTruthyPromise]
  norm_num

/-- C10: when the backing file exists but does not parse as JSON,
trackCostBasis returns 0 for any queried key and overwrites the
persisted file with an empty JSON object: the store changes state, and
every entry the corrupt file may have represented is gone. -/
theorem C10_corrupt_file_overwritten_empty (wallet mint : String) :
    trackCostBasis FileState.corrupt wallet mint = (0, FileState.valid []) ∧
    FileState.valid [] ≠ FileState.corrupt :=
  ⟨rfl, by simp⟩

end MemeGains
